import Mathlib

/-!
# SenseCAP Indicator D1 — verification of the device state model

Shallow embedding of the backend state model (`backend.c`) and the MQTT
event-handling / publish glue (`main.c`) of the SenseCAP Indicator D1
firmware, with proofs of the specified properties.

Machine integers: the C `uint8_t` globals are modelled as `Nat` values;
the implicit C conversion from `int` to `uint8_t` at a call boundary is
modelled explicitly by `toUint8` (reduction mod 256).  Side effects
(calls into the UI layer and MQTT publications) are modelled as an
explicit event trace returned alongside the new state, in emission order.
-/

namespace SenseCap

/-- An observable side effect emitted by the backend: a call into the UI
layer (`ui_set_bright_state`, `ui_set_relax_state`,
`ui_update_water_level_async`) or a request to publish a light state via
`publish_light_state`. -/
inductive Event where
  | uiSetBright (state : Int)
  | uiSetRelax (state : Int)
  | uiWater (level : Int)
  | publish (mode : String) (state : Int)
deriving DecidableEq, Repr

/-- The three `static volatile uint8_t` globals of `backend.c`. -/
structure BackendState where
  bright_state : Nat
  relax_state : Nat
  water_level : Nat
deriving DecidableEq, Repr

/-- `backend_init`: both modes off, water level defaults to 50. -/
def backend_init_state : BackendState := ⟨0, 0, 50⟩

/-- C implicit conversion of an `int` argument to a `uint8_t` parameter:
reduction modulo 256. -/
def toUint8 (x : Int) : Nat := (x % 256).toNat

/-- `backend_set_bright(state)`: stores `state` into `bright_state`; if
`state != 0` additionally clears `relax_state` and calls
`ui_set_relax_state(0)`; finally calls `publish_light_state("bright", state)`. -/
def backend_set_bright (state : Nat) (st : BackendState) :
    BackendState × List Event :=
  let st1 := { st with bright_state := state }
  if state ≠ 0 then
    ({ st1 with relax_state := 0 },
      [Event.uiSetRelax 0, Event.publish "bright" (state : Int)])
  else
    (st1, [Event.publish "bright" (state : Int)])

/-- `backend_set_relax(state)`: stores `state` into `relax_state`; if
`state != 0` additionally clears `bright_state` and calls
`ui_set_bright_state(0)`; finally calls `publish_light_state("relax", state)`. -/
def backend_set_relax (state : Nat) (st : BackendState) :
    BackendState × List Event :=
  let st1 := { st with relax_state := state }
  if state ≠ 0 then
    ({ st1 with bright_state := 0 },
      [Event.uiSetBright 0, Event.publish "relax" (state : Int)])
  else
    (st1, [Event.publish "relax" (state : Int)])

/-- `backend_get_bright_state()`. -/
def backend_get_bright_state (st : BackendState) : Nat := st.bright_state

/-- `backend_get_relax_state()`. -/
def backend_get_relax_state (st : BackendState) : Nat := st.relax_state

/-- `backend_toggle_bright()`: reads the current bright state and calls
`backend_set_bright(current == 0 ? 1 : 0)`. -/
def backend_toggle_bright (st : BackendState) : BackendState × List Event :=
  let current := backend_get_bright_state st
  backend_set_bright (if current = 0 then 1 else 0) st

/-- `backend_toggle_relax()`: reads the current relax state and calls
`backend_set_relax(current == 0 ? 1 : 0)`. -/
def backend_toggle_relax (st : BackendState) : BackendState × List Event :=
  let current := backend_get_relax_state st
  backend_set_relax (if current = 0 then 1 else 0) st

/-- `backend_update_water_level(level)`: clamps `level` (a `uint8_t`) down
to 100 when it exceeds 100, stores it, and calls
`ui_update_water_level_async((int)level)`. -/
def backend_update_water_level (level : Nat) (st : BackendState) :
    BackendState × List Event :=
  let level := if level > 100 then 100 else level
  ({ st with water_level := level }, [Event.uiWater (level : Int)])

/-- `backend_get_water_level()`. -/
def backend_get_water_level (st : BackendState) : Nat := st.water_level

/-- A backend entry point that mutates the light/water state, for
reasoning about arbitrary call sequences. -/
inductive Op where
  | setBright (s : Nat)
  | setRelax (s : Nat)
  | toggleBright
  | toggleRelax
  | updateWater (l : Nat)
deriving DecidableEq, Repr

/-- Dispatch one backend call. -/
def stepOp (st : BackendState) (op : Op) : BackendState × List Event :=
  match op with
  | Op.setBright s => backend_set_bright s st
  | Op.setRelax s => backend_set_relax s st
  | Op.toggleBright => backend_toggle_bright st
  | Op.toggleRelax => backend_toggle_relax st
  | Op.updateWater l => backend_update_water_level l st

/-- Run a sequence of backend calls, accumulating the emitted events in
order. -/
def run (st : BackendState) : List Op → BackendState × List Event
  | [] => (st, [])
  | op :: ops =>
    let r1 := stepOp st op
    let r2 := run r1.1 ops
    (r2.1, r1.2 ++ r2.2)

/-- The publish requests contained in an event trace, in order. -/
def publishes : List Event → List (String × Int)
  | [] => []
  | Event.publish m s :: es => (m, s) :: publishes es
  | _ :: es => publishes es

/-- The JSON payload built by `publish_light_state` in `main.c` with
`snprintf`: an object with exactly a mode field holding the mode name and
a state field holding the state integer. -/
def lightPayload (mode : String) (state : Int) : String :=
  "\x7b\"mode\":\"" ++ mode ++ "\",\"state\":" ++ toString state ++ "\x7d"

/-- `publish_light_state(mode, state)` in `main.c`: returns without
publishing when `mqtt_client` is `NULL` (modelled by `clientUp = false`),
otherwise publishes exactly one message with the formatted payload. -/
def publish_light_state (clientUp : Bool) (mode : String) (state : Int) :
    List String :=
  if clientUp then [lightPayload mode state] else []

/-- The outbound MQTT payloads produced when the publish requests of an
event trace are carried out by `publish_light_state`. -/
def outbound (clientUp : Bool) : List Event → List String
  | [] => []
  | Event.publish m s :: es => publish_light_state clientUp m s ++ outbound clientUp es
  | _ :: es => outbound clientUp es

/-! ## The MQTT event handler of `main.c` -/

/-- The water-level subscription topic. -/
def mqtt_topic_water_level : String := "sensecap/indicator/water/level"

/-- Whether ASCII character `c` is C whitespace (as classified by
`isspace` in the default locale), used by `atoi`. -/
def isCSpace (c : Char) : Bool :=
  c = ' ' ∨ c = '\t' ∨ c = '\n' ∨ c = Char.ofNat 11 ∨ c = Char.ofNat 12 ∨
    c = Char.ofNat 13

/-- Decimal digit accumulation of C `atoi`: consume digits, stop at the
first non-digit. -/
def atoiDigits : List Char → Nat → Nat
  | [], acc => acc
  | c :: cs, acc =>
    if c.isDigit then atoiDigits cs (acc * 10 + (c.toNat - 48)) else acc

/-- Sign handling of C `atoi` after whitespace has been skipped. -/
def atoiSigned : List Char → Int
  | '-' :: cs => -(atoiDigits cs 0 : Int)
  | '+' :: cs => (atoiDigits cs 0 : Int)
  | cs => (atoiDigits cs 0 : Int)

/-- C `atoi`: skip leading whitespace, optional sign, then digits; a
string with no leading digits yields 0 (no error is reported). -/
def atoi (cs : List Char) : Int := atoiSigned (cs.dropWhile (fun c => isCSpace c))

/-- C `strncmp(a, b, n) == 0` for strings containing no interior NUL:
`[]` stands for the terminating NUL of each argument. -/
def strncmpEqZero : List Char → List Char → Nat → Bool
  | _, _, 0 => true
  | [], [], _ + 1 => true
  | [], _ :: _, _ + 1 => false
  | _ :: _, [], _ + 1 => false
  | c :: a, d :: b, n + 1 => if c = d then strncmpEqZero a b n else false

/-- The `MQTT_EVENT_DATA` branch of `mqtt_event_handler` in `main.c`:
if `strncmp(topic, MQTT_TOPIC_WATER_LEVEL, topic_len) == 0`, it copies at
most 15 bytes of the payload into a NUL-terminated buffer, parses it with
`atoi`, and calls `ui_update_water_level_async` with the result.  It does
not call any `backend_` function, so the backend state is returned
unchanged. -/
def mqtt_event_data (topic data : String) (st : BackendState) :
    BackendState × List Event :=
  if strncmpEqZero topic.toList mqtt_topic_water_level.toList topic.length then
    let len := min data.length 15
    let data_str := data.toList.take len
    (st, [Event.uiWater (atoi data_str)])
  else
    (st, [])

/-! ## Interleaving model for the concurrency claim

`backend.c` stores its state in plain `volatile` globals and takes no
lock; `backend_toggle_bright` is a read followed by `backend_set_bright`,
whose body is itself two separate stores.  A thread running
`backend_toggle_bright` is therefore modelled as a sequence of micro
steps between which another thread may be scheduled. -/

/-- Per-thread progress through `backend_toggle_bright`:
`pc = 0` about to read `bright_state` into `current`;
`pc = 1` about to store `current == 0 ? 1 : 0` into `bright_state`;
`pc = 2` about to clear `relax_state` when the stored value was nonzero;
`pc = 3` done.  `r` holds the value read, `s` the value stored. -/
structure ToggleThread where
  pc : Nat
  r : Nat
  s : Nat
deriving DecidableEq, Repr

/-- A thread at the start of `backend_toggle_bright`. -/
def threadInit : ToggleThread := ⟨0, 0, 0⟩

/-- One micro step of `backend_toggle_bright` by one thread against the
shared globals. -/
def toggleMicroStep (g : BackendState) (t : ToggleThread) :
    BackendState × ToggleThread :=
  match t.pc with
  | 0 => (g, { t with pc := 1, r := backend_get_bright_state g })
  | 1 =>
    let v := if t.r = 0 then 1 else 0
    ({ g with bright_state := v }, { t with pc := 2, s := v })
  | 2 =>
    if t.s ≠ 0 then ({ g with relax_state := 0 }, { t with pc := 3 })
    else (g, { t with pc := 3 })
  | _ => (g, t)

/-- Two threads each running `backend_toggle_bright` over the shared
globals. -/
structure TwoToggles where
  g : BackendState
  t1 : ToggleThread
  t2 : ToggleThread
deriving DecidableEq, Repr

/-- Schedule one micro step of the chosen thread (`false` = first thread,
`true` = second). -/
def schedStep (sys : TwoToggles) (who : Bool) : TwoToggles :=
  if who then
    let r := toggleMicroStep sys.g sys.t2
    { sys with g := r.1, t2 := r.2 }
  else
    let r := toggleMicroStep sys.g sys.t1
    { sys with g := r.1, t1 := r.2 }

/-- Run a schedule (an interleaving) of the two threads. -/
def runSched (sys : TwoToggles) : List Bool → TwoToggles
  | [] => sys
  | w :: ws => runSched (schedStep sys w) ws

/-! ## Invariant machinery -/

/-- Mutual exclusion: the two mode flags are never both nonzero. -/
def mutexOk (st : BackendState) : Prop :=
  backend_get_bright_state st = 0 ∨ backend_get_relax_state st = 0

theorem mutexOk_set_bright (s : Nat) (st : BackendState) :
    mutexOk (backend_set_bright s st).1 := by
  by_cases h : s = 0 <;>
    simp [backend_set_bright, mutexOk, backend_get_bright_state,
      backend_get_relax_state, h]

theorem mutexOk_set_relax (s : Nat) (st : BackendState) :
    mutexOk (backend_set_relax s st).1 := by
  by_cases h : s = 0 <;>
    simp [backend_set_relax, mutexOk, backend_get_bright_state,
      backend_get_relax_state, h]

theorem mutexOk_step (st : BackendState) (op : Op) (h : mutexOk st) :
    mutexOk (stepOp st op).1 := by
  cases op with
  | setBright s => exact mutexOk_set_bright s st
  | setRelax s => exact mutexOk_set_relax s st
  | toggleBright => exact mutexOk_set_bright _ st
  | toggleRelax => exact mutexOk_set_relax _ st
  | updateWater l =>
    simpa [backend_update_water_level, mutexOk, backend_get_bright_state,
      backend_get_relax_state] using h

theorem mutexOk_run (ops : List Op) (st : BackendState) (h : mutexOk st) :
    mutexOk (run st ops).1 := by
  induction ops generalizing st with
  | nil => simpa [run] using h
  | cons op ops ih => simpa [run] using ih _ (mutexOk_step st op h)

/-! ## Claims -/

/-- C1: starting from the initial state (both modes off), after every
sequence of backend mutator calls (set bright/relax, toggle bright/relax,
and also water-level updates, a superset of the claimed sequences) at
least one of `backend_get_bright_state` and `backend_get_relax_state`
returns 0 — they are never both nonzero. -/
theorem c1_mutual_exclusion (ops : List Op) :
    backend_get_bright_state (run backend_init_state ops).1 = 0 ∨
      backend_get_relax_state (run backend_init_state ops).1 = 0 :=
  mutexOk_run ops backend_init_state (Or.inl rfl)

/-- C2, counterexample: at the C call `backend_update_water_level(300)`
the `int` argument is converted to the `uint8_t` parameter as
300 mod 256 = 44, which is stored as-is, so the stored level (44) is not
`max 0 (min 100 300) = 100`: the claimed clamping formula over all
integers is false. -/
theorem c2_counterexample :
    decide ((backend_get_water_level
        (backend_update_water_level (toUint8 300) backend_init_state).1 : Int)
      = max 0 (min 100 (300 : Int))) = false := by decide

/-- C2, amended: `backend_update_water_level` takes a `uint8_t`, so an
integer argument x is first reduced mod 256 by the C conversion; the
stored value, returned by `backend_get_water_level`, is then
`min 100 (x mod 256)` — only the upper bound is clamped (the parameter
type makes negative values impossible), and for x in [0, 255] this is
exactly `min 100 x`. -/
theorem c2_water_clamp_amended (x : Int) (st : BackendState) :
    backend_get_water_level
        (backend_update_water_level (toUint8 x) st).1 = min 100 (toUint8 x) := by
  simp only [backend_update_water_level, backend_get_water_level]
  split <;> omega

/-- C3: evaluating the `MQTT_EVENT_DATA` branch of `mqtt_event_handler`
on the water-level topic with payload "150": the handler passes the
unclamped `atoi` result 150 directly to `ui_update_water_level_async`
and never calls `backend_update_water_level`, so the backend state is
unchanged and `backend_get_water_level` still returns the old value 50,
not the claimed clamped 100. -/
theorem c3_handler_bypasses_backend :
    mqtt_event_data mqtt_topic_water_level "150" backend_init_state
        = (backend_init_state, [Event.uiWater 150]) ∧
      backend_get_water_level
        (mqtt_event_data mqtt_topic_water_level "150" backend_init_state).1 = 50 := by
  exact ⟨rfl, rfl⟩

/-- C4, counterexample: on the water-level topic with the non-numeric
payload "abc" the handler does not drop the message: `atoi` yields 0 and
the handler emits a `ui_update_water_level_async(0)` render refresh, so
the claimed "no render-refresh signal fires" is false (the emitted event
list is not empty). -/
theorem c4_counterexample :
    (mqtt_event_data mqtt_topic_water_level "abc" backend_init_state).2
        = [Event.uiWater 0] ∧
      decide ((mqtt_event_data mqtt_topic_water_level "abc"
          backend_init_state).2 = ([] : List Event)) = false := by
  exact ⟨rfl, rfl⟩

/-- C4, amended: a non-numeric payload such as "abc" is not discarded:
`atoi` parses it as 0 and the handler fires exactly one render refresh
carrying level 0; the backend stored water level is unchanged (the
handler never touches backend state) and the handler is a total
function, so no crash occurs. -/
theorem c4_amended (st : BackendState) :
    mqtt_event_data mqtt_topic_water_level "abc" st = (st, [Event.uiWater 0]) := by
  exact rfl

/-- C5, counterexample: the backend globals are unsynchronized, and an
interleaving of two `backend_toggle_bright` calls in which both threads
read `bright_state` before either writes ends — with both threads
completed — at bright = 1, not the pre-toggle value 0 (a lost update).
Moreover from the reachable state (0, 1, 50) = `backend_set_relax(1)`
after init, a scheduler break between the two stores inside
`backend_set_bright` exposes a state with both mode flags nonzero. -/
theorem c5_counterexample :
    ((runSched ⟨backend_init_state, threadInit, threadInit⟩
        [false, true, false, false, true, true]).t1.pc = 3 ∧
      (runSched ⟨backend_init_state, threadInit, threadInit⟩
        [false, true, false, false, true, true]).t2.pc = 3 ∧
      decide (backend_get_bright_state
          (runSched ⟨backend_init_state, threadInit, threadInit⟩
            [false, true, false, false, true, true]).g
        = backend_get_bright_state backend_init_state) = false) ∧
    ((backend_set_relax 1 backend_init_state).1 = ⟨0, 1, 50⟩ ∧
      backend_get_bright_state
        (runSched ⟨⟨0, 1, 50⟩, threadInit, threadInit⟩ [false, false]).g = 1 ∧
      backend_get_relax_state
        (runSched ⟨⟨0, 1, 50⟩, threadInit, threadInit⟩ [false, false]).g = 1) := by
  decide

/-- C5, amended: two sequential (non-interleaved) `backend_toggle_bright`
calls from a state with both modes off return the state exactly to its
pre-toggle value; but the code takes no lock, so interleaved toggles can
lose an update and a reader between `backend_set_bright`'s two stores can
observe both flags set (see the counterexample). -/
theorem c5_sequential_toggle_roundtrip (st : BackendState)
    (hb : st.bright_state = 0) (hr : st.relax_state = 0) :
    (backend_toggle_bright (backend_toggle_bright st).1).1 = st := by
  obtain ⟨b, r, w⟩ := st
  simp only at hb hr
  subst hb; subst hr
  rfl

/-- Witness for C5's amended theorem at the initial state. -/
theorem c5_witness :
    backend_init_state.bright_state = 0 ∧ backend_init_state.relax_state = 0 ∧
      (backend_toggle_bright (backend_toggle_bright backend_init_state).1).1
        = backend_init_state :=
  ⟨rfl, rfl, c5_sequential_toggle_roundtrip backend_init_state rfl rfl⟩

/-- C6: calling `backend_set_bright(1)` while relax is on leaves relax
off, and the emitted trace is exactly the relax-off UI refresh followed
by the publish of bright with state 1 — in that order. -/
theorem c6_takeover_ordering (st : BackendState)
    (h : backend_get_relax_state st ≠ 0) :
    backend_get_relax_state (backend_set_bright 1 st).1 = 0 ∧
      (backend_set_bright 1 st).2
        = [Event.uiSetRelax 0, Event.publish "bright" 1] := by
  exact ⟨rfl, rfl⟩

/-- Witness for C6 at the reachable state (0, 1, 50). -/
theorem c6_witness :
    backend_get_relax_state ⟨0, 1, 50⟩ ≠ 0 ∧
      (backend_get_relax_state (backend_set_bright 1 ⟨0, 1, 50⟩).1 = 0 ∧
        (backend_set_bright 1 ⟨0, 1, 50⟩).2
          = [Event.uiSetRelax 0, Event.publish "bright" 1]) :=
  ⟨by decide, c6_takeover_ordering ⟨0, 1, 50⟩ (by decide)⟩

/-- C7: `backend_toggle_bright` reads the current bright value and calls
`backend_set_bright` with its boolean negation (as 0/1); and from any
state (0, 0, w) two successive toggles restore (0, 0, w) while publishing
exactly ("bright", 1) then ("bright", 0), in that order. -/
theorem c7_double_toggle :
    (∀ st : BackendState,
      backend_toggle_bright st
        = backend_set_bright
            (if backend_get_bright_state st = 0 then 1 else 0) st) ∧
    ∀ w : Nat,
      (run ⟨0, 0, w⟩ [Op.toggleBright, Op.toggleBright]).1 = ⟨0, 0, w⟩ ∧
        publishes (run ⟨0, 0, w⟩ [Op.toggleBright, Op.toggleBright]).2
          = [("bright", 1), ("bright", 0)] :=
  ⟨fun _ => rfl, fun _ => ⟨rfl, rfl⟩⟩

/-- C8: with the MQTT client up, every `backend_set_bright` /
`backend_set_relax` call with a boolean state — regardless of the current
state, including no-change calls — produces exactly one outbound payload,
built from the fixed mode token and the 0/1 state integer; for
mode = bright, state = 1 the payload is the literal JSON object with
exactly the two fields mode and state. -/
theorem c8_unconditional_republish (st : BackendState) (b : Bool) :
    outbound true (backend_set_bright (if b then 1 else 0) st).2
        = [lightPayload "bright" (if b then 1 else 0)] ∧
      outbound true (backend_set_relax (if b then 1 else 0) st).2
        = [lightPayload "relax" (if b then 1 else 0)] ∧
      lightPayload "bright" 1 = "\x7b\"mode\":\"bright\",\"state\":1\x7d" := by
  cases b <;> exact ⟨rfl, rfl, rfl⟩

/-- C9: turning a mode off (argument 0) leaves the other mode's flag and
the water level unchanged, and `backend_update_water_level` leaves both
mode flags unchanged, for every state. -/
theorem c9_frame (st : BackendState) :
    (backend_set_bright 0 st).1.relax_state = st.relax_state ∧
      (backend_set_bright 0 st).1.water_level = st.water_level ∧
      (backend_set_relax 0 st).1.bright_state = st.bright_state ∧
      (backend_set_relax 0 st).1.water_level = st.water_level ∧
      ∀ l : Nat,
        (backend_update_water_level l st).1.bright_state = st.bright_state ∧
          (backend_update_water_level l st).1.relax_state = st.relax_state :=
  ⟨rfl, rfl, rfl, rfl, fun _ => ⟨rfl, rfl⟩⟩

/-- C10: a `uint8_t` argument s outside 0 and 1 is stored verbatim by
`backend_set_bright`, so `backend_get_bright_state` returns s itself, the
published payload carries state = s, and since s is nonzero the relax
flag is forced to 0; symmetrically for `backend_set_relax`. -/
theorem c10_nonboolean_passthrough (st : BackendState) (s : Nat)
    (h256 : s < 256) (h0 : s ≠ 0) (h1 : s ≠ 1) :
    backend_get_bright_state (backend_set_bright s st).1 = s ∧
      (backend_set_bright s st).1.relax_state = 0 ∧
      outbound true (backend_set_bright s st).2
        = [lightPayload "bright" (s : Int)] ∧
      backend_get_relax_state (backend_set_relax s st).1 = s ∧
      (backend_set_relax s st).1.bright_state = 0 ∧
      outbound true (backend_set_relax s st).2
        = [lightPayload "relax" (s : Int)] := by
  simp [backend_set_bright, backend_set_relax, backend_get_bright_state,
    backend_get_relax_state, outbound, publish_light_state, h0]

/-- Witness for C10 at s = 2 from the initial state. -/
theorem c10_witness :
    (2 : Nat) < 256 ∧ (2 : Nat) ≠ 0 ∧ (2 : Nat) ≠ 1 ∧
      (backend_get_bright_state (backend_set_bright 2 backend_init_state).1 = 2 ∧
        (backend_set_bright 2 backend_init_state).1.relax_state = 0 ∧
        outbound true (backend_set_bright 2 backend_init_state).2
          = [lightPayload "bright" ((2 : Nat) : Int)] ∧
        backend_get_relax_state (backend_set_relax 2 backend_init_state).1 = 2 ∧
        (backend_set_relax 2 backend_init_state).1.bright_state = 0 ∧
        outbound true (backend_set_relax 2 backend_init_state).2
          = [lightPayload "relax" ((2 : Nat) : Int)]) :=
  ⟨by decide, by decide, by decide,
    c10_nonboolean_passthrough backend_init_state 2 (by decide) (by decide)
      (by decide)⟩

end SenseCap
